import Mathlib

/-!
Verification of the chatbot flow backend (chatapp).

This file gives a shallow embedding, in Lean 4, of the core logic of
src/chatapp/services.py and proves the frozen specification claims about it.

Modelling conventions:
* Python strings are Lean `String`s; `str.split()` / `str.strip()` /
  `str.lower()` / the substring operator `in` are modelled character-wise
  over ASCII whitespace (the non-ASCII corners of Python's unicode-aware
  versions are out of scope for every claim below).
* Python floats are modelled as `ℚ`.  `round(x, 1)` is modelled as rounding
  `10 * x` to the nearest integer (`round1` below).  Python uses
  round-half-to-even on binary floats; no claim below depends on the
  behaviour at exact ties, only on monotonicity and on the rounding being
  the same function everywhere it is used.
* `random.choice(seq)` is modelled by an extra `rand : Nat` argument and
  selection of `seq[rand % len(seq)]`; every concrete outcome of the random
  draw is realised by some `rand`.  Similarly `random.sample(pool, k)` is
  modelled by an extra argument listing the chosen (pairwise distinct)
  indices into the pool.
* The Django ORM tables for `Answer` and `FollowUp` are modelled as a
  functional store `DB`; persistence calls always succeed in the model
  (the code swallows storage exceptions and the claims below are about the
  states the flow itself produces).  `Session` and `Question` rows carry no
  score data and no claim mentions them, so they are not part of the state.
-/

/-! ## Python string primitives -/

/-- ASCII whitespace as recognised by Python's `str.split()` / `str.strip()`. -/
def pyIsSpace (c : Char) : Bool :=
  c == ' ' || c == '\t' || c == '\n' || c == '\r' || c == '\x0b' || c == '\x0c'

/-- Helper for `pySplitWs`: scan the characters, accumulating the current
word (reversed) and emitting it at each whitespace run or at the end. -/
def pyWordsAux (acc : List Char) : List Char → List (List Char)
  | [] => if acc = [] then [] else [acc.reverse]
  | c :: cs =>
    if pyIsSpace c then
      if acc = [] then pyWordsAux [] cs else acc.reverse :: pyWordsAux [] cs
    else pyWordsAux (c :: acc) cs

/-- Python `str.split()` with no arguments: split on whitespace runs,
discarding empty fragments. -/
def pySplitWs (s : String) : List String :=
  (pyWordsAux [] s.data).map (fun w => ⟨w⟩)

/-- Python `str.strip()`: drop leading and trailing whitespace. -/
def pyStrip (s : String) : String :=
  ⟨((s.data.dropWhile pyIsSpace).reverse.dropWhile pyIsSpace).reverse⟩

/-- Python `str.lower()` (character-wise, ASCII view). -/
def pyLower (s : String) : String :=
  ⟨s.data.map Char.toLower⟩

/-- Python's substring test `needle in hay`. -/
def pyContains (hay needle : String) : Bool :=
  hay.data.tails.any (fun t => needle.data.isPrefixOf t)

/-- Python `s.count(c)` for a single character. -/
def pyCountChar (s : String) (c : Char) : Nat :=
  s.data.count c

/-- Python `round(x, 1)` on the ℚ model of floats: round `10 * x` to the
nearest integer and divide by 10. -/
def round1 (q : ℚ) : ℚ :=
  ((round (q * 10) : ℤ) : ℚ) / 10

/-! ## Module constants (services.py lines 9-12) -/

def MIN_FOLLOW_UP_COUNT : Int := 1
def FOLLOW_UP_COUNT : Int := 8
def QUESTION_COUNT : Int := 10

/-! ## Heuristic scorer (services.py) -/

/-- The three fixed feedback strings of the scorer, plus the empty-answer one. -/
def strongFeedback : String :=
  "Strong, detailed answer with good structure and coverage of the question."

def reasonableFeedback : String :=
  "Reasonable answer with okay coverage. It could be improved with more concrete detail and clearer structure."

def shallowFeedback : String :=
  "Answer is too shallow or not clearly connected to the question. Add concrete examples, explain key terms, and address all parts of the prompt."

def noAnswerFeedback : String := "No answer was provided."

/-- Embedding of `_coverage_penalty` (services.py lines 589-602).
The set comprehension over lowered tokens is modelled by `dedup` of the
lowered tokens that survive the length filter. -/
def _coverage_penalty (question answer : String) : ℚ :=
  let question_terms :=
    (((pySplitWs question).filter (fun t => 3 < t.length)).map pyLower).dedup
  if question_terms = [] then 0
  else
    let matched := (question_terms.filter (fun t => pyContains (pyLower answer) t)).length
    let coverage_ratio : ℚ := (matched : ℚ) / (question_terms.length : ℚ)
    if 3 / 5 ≤ coverage_ratio then 0
    else if 3 / 10 ≤ coverage_ratio then 1
    else 2

/-- Result record of `evaluate_answer_individually`. -/
structure EvalResult where
  score : ℚ
  feedback : String
deriving Repr, DecidableEq

/-- Embedding of `evaluate_answer_individually` (services.py lines 351-400). -/
def evaluate_answer_individually (question_text answer_text : String)
    (_language : String := "en") : EvalResult :=
  let normalized_answer := pyStrip answer_text
  let word_count := (pySplitWs normalized_answer).length
  if word_count = 0 then
    { score := 0, feedback := noAnswerFeedback }
  else
    let length_score : ℚ := min 5 ((word_count : ℚ) / 15)
    let cov := _coverage_penalty question_text normalized_answer
    let sentence_endings :=
      pyCountChar normalized_answer '.' + pyCountChar normalized_answer '!' +
        pyCountChar normalized_answer '?'
    let structure_bonus : ℚ :=
      (if 2 ≤ sentence_endings then 1 else 0) +
        (if normalized_answer.data.contains '\n' then 1 / 2 else 0)
    let raw_score := length_score + structure_bonus - cov
    let score := max 0 (min 10 (round1 raw_score))
    let feedback :=
      if 8 ≤ score then strongFeedback
      else if 5 ≤ score then reasonableFeedback
      else shallowFeedback
    { score := score, feedback := feedback }

/-- Result record of `evaluate_single_answer_with_attachment`; the echoed
context keys of the returned dict are carried along. -/
structure AttachEvalResult where
  score : ℚ
  feedback : String
  topic : String
  user : String
  question : String
  language : String
  sub_dialogue : List (String × String)
deriving Repr, DecidableEq

/-- Embedding of `evaluate_single_answer_with_attachment`
(services.py lines 21-95). -/
def evaluate_single_answer_with_attachment (topic user question answer_text : String)
    (language : String := "en")
    (sub_dialogue : List (String × String) := []) : AttachEvalResult :=
  let normalized_answer := pyStrip answer_text
  let word_count := (pySplitWs normalized_answer).length
  if word_count = 0 then
    { score := 0, feedback := noAnswerFeedback, topic := topic, user := user,
      question := question, language := language, sub_dialogue := sub_dialogue }
  else
    let length_score : ℚ := min 5 ((word_count : ℚ) / 15)
    let cov := _coverage_penalty question normalized_answer
    let sentence_endings :=
      pyCountChar normalized_answer '.' + pyCountChar normalized_answer '!' +
        pyCountChar normalized_answer '?'
    let structure_bonus : ℚ :=
      (if 2 ≤ sentence_endings then 1 else 0) +
        (if normalized_answer.data.contains '\n' then 1 / 2 else 0)
    let followup_bonus : ℚ :=
      if sub_dialogue ≠ [] then min 1 ((sub_dialogue.length : ℚ) * (1 / 4)) else 0
    let raw_score := length_score + structure_bonus + followup_bonus - cov
    let score := max 0 (min 10 (round1 raw_score))
    let feedback :=
      if 8 ≤ score then strongFeedback
      else if 5 ≤ score then reasonableFeedback
      else shallowFeedback
    { score := score, feedback := feedback, topic := topic, user := user,
      question := question, language := language, sub_dialogue := sub_dialogue }

/-- Embedding of `calculate_average_score` (services.py lines 403-415). -/
def calculate_average_score (original_score : ℚ) (followup_scores : List ℚ) : ℚ :=
  if followup_scores = [] then original_score
  else
    let all_scores := original_score :: followup_scores
    round1 (all_scores.sum / (all_scores.length : ℚ))

/-! ## Follow-up target normalization (services.py lines 719-733) -/

/-- JSON-ish values that can reach `target_followups` through the request
boundary: integers, strings, or null. -/
inductive PyVal where
  | int (n : Int)
  | str (s : String)
  | none
deriving Repr, DecidableEq

/-- Python truthiness for the values of `PyVal`. -/
def PyVal.truthy : PyVal → Bool
  | .int n => n ≠ 0
  | .str s => s ≠ ""
  | .none => false

/-- Python's short-circuiting `a or b`. -/
def pyOr (a b : PyVal) : PyVal :=
  if a.truthy then a else b

/-- Python `int(s)` on a string: optional surrounding whitespace, optional
sign, then a nonempty digit run; anything else raises `ValueError`,
modelled as `Option.none`. -/
def pyIntOfString (s : String) : Option Int :=
  let t := pyStrip s
  let signed : Int × List Char :=
    match t.data with
    | '+' :: rest => (1, rest)
    | '-' :: rest => (-1, rest)
    | l => (1, l)
  if signed.2 ≠ [] ∧ signed.2.all Char.isDigit then
    some (signed.1 * ((signed.2.foldl (fun acc c => acc * 10 + (c.toNat - 48)) 0 : Nat) : Int))
  else Option.none

/-- Embedding of `_normalize_followup_target` (services.py lines 719-733):
`None` and unparsable values give the default 8, numbers are clamped to
`[MIN_FOLLOW_UP_COUNT, FOLLOW_UP_COUNT] = [1, 8]`. -/
def _normalize_followup_target (target : PyVal) : Int :=
  match target with
  | .none => FOLLOW_UP_COUNT
  | .int n => max MIN_FOLLOW_UP_COUNT (min FOLLOW_UP_COUNT n)
  | .str s =>
    match pyIntOfString s with
    | some n => max MIN_FOLLOW_UP_COUNT (min FOLLOW_UP_COUNT n)
    | Option.none => FOLLOW_UP_COUNT

/-- The plan target exactly as `continue_followups` computes it
(services.py line 448): `_normalize_followup_target(target_followups or FOLLOW_UP_COUNT)`. -/
def continuation_plan_target (target_followups : PyVal) : Int :=
  _normalize_followup_target (pyOr target_followups (.int FOLLOW_UP_COUNT))

/-! ## Follow-up generator (services.py lines 127-236) -/

/-- Embedding of `_followup_scaffolding`: ten categories of four phrasing
variants each, verbatim from the source. -/
def _followup_scaffolding : List (List String) :=
  [ [ "Can you list concrete examples that support your earlier point?",
      "Could you provide specific examples to illustrate what you mentioned?",
      "What real-world examples can you give to back up your statement?",
      "Can you share some concrete instances that demonstrate your point?" ],
    [ "What data or citations back up your response?",
      "What evidence or sources support your answer?",
      "Can you provide any data or references that validate your point?",
      "What research or documentation supports what you've said?" ],
    [ "Where could the initial answer be expanded for clarity?",
      "What parts of your answer could use more detail or explanation?",
      "Which aspects would benefit from a deeper explanation?",
      "What additional context would make your answer clearer?" ],
    [ "Are there edge cases or counter-arguments you did not cover?",
      "What edge cases or exceptions should be considered?",
      "Are there any scenarios where your answer might not apply?",
      "What alternative perspectives or counter-arguments exist?" ],
    [ "How would you explain this to a beginner in one paragraph?",
      "Can you simplify this explanation for someone new to the topic?",
      "How would you make this more accessible to a beginner?",
      "What's a beginner-friendly way to explain this concept?" ],
    [ "Which practical steps should the user take next?",
      "What are the next steps someone should follow?",
      "What actionable steps would you recommend?",
      "What would be the practical next steps in this situation?" ],
    [ "Summarize the critical risks or unknowns that remain.",
      "What are the main risks or uncertainties to be aware of?",
      "What potential issues or unknowns should be considered?",
      "What are the key risks or gaps that need attention?" ],
    [ "Provide a concise checklist the user can follow.",
      "Can you create a step-by-step checklist for this?",
      "What would a practical checklist look like for this?",
      "Can you summarize this as a clear, actionable checklist?" ],
    [ "What are the specific implementation details you would focus on?",
      "Can you elaborate on the technical implementation aspects?",
      "What are the key technical details needed for implementation?",
      "What implementation considerations are most important?" ],
    [ "What common issues might arise and how would you handle them?",
      "What problems could occur and what are the solutions?",
      "What troubleshooting steps would you recommend?",
      "How would you handle potential issues or errors?" ] ]

/-- Embedding of `generate_next_follow_up_question` (services.py lines
127-157).  The category cycles by `asked_count`, the phrasing variant is the
random draw `rand` (see the modelling note at the top of the file). -/
def generate_next_follow_up_question (topic user original_question original_answer : String)
    (language : String) (asked_count : Nat) (rand : Nat) : String :=
  let _ := user
  let _ := original_answer
  let _ := language
  let scaffolding := _followup_scaffolding
  let category_index := asked_count % scaffolding.length
  let category_variations := scaffolding.getD category_index []
  let selected_template := category_variations.getD (rand % category_variations.length) ""
  let context_snippet := pyStrip (original_question.take 60)
  selected_template ++ " (Regarding " ++ topic ++ ": " ++ context_snippet ++ ")"

/-! ## Persistence model (models.py: Answer and FollowUp rows) -/

/-- An `Answer` row (models.py lines 43-65); only the fields the flow logic
reads or writes. -/
structure AnswerRec where
  answer_text : String
  initial_score : Option ℚ := Option.none
  final_score : Option ℚ := Option.none
  average_score : Option ℚ := Option.none
  initial_feedback : String := ""
  final_feedback : String := ""
  target_followups : Int
  completed_followups : Int
deriving Repr, DecidableEq

/-- A `FollowUp` row (models.py lines 68-87), keyed externally by
`(answer_id, followup_index)`. -/
structure FollowUpRec where
  question_text : String
  answer_text : String
  score : Option ℚ := Option.none
  feedback : String := ""
deriving Repr, DecidableEq

/-- The store the flow functions mutate: `Answer` rows keyed by primary key
and `FollowUp` rows keyed by `(answer_id, followup_index)`.  `nextId` is the
next primary key (Django keys start at 1). -/
structure DB where
  answers : Nat → Option AnswerRec
  followups : Nat → Nat → Option FollowUpRec
  nextId : Nat

def DB.empty : DB :=
  { answers := fun _ => Option.none, followups := fun _ _ => Option.none, nextId := 1 }

def DB.setAnswer (db : DB) (id : Nat) (a : AnswerRec) : DB :=
  { db with answers := fun i => if i = id then some a else db.answers i }

def DB.setFollowup (db : DB) (id idx : Nat) (f : FollowUpRec) : DB :=
  { db with followups := fun i j => if i = id ∧ j = idx then some f else db.followups i j }

/-- Python truthiness of an optional primary key (`if answer_id:`); Django
keys are positive, `None` and 0 are falsy. -/
def pyTruthyId : Option Nat → Bool
  | some id => id ≠ 0
  | Option.none => false

/-! ## Flow controller (services.py lines 239-586) -/

/-- The response dict of `handle_question_flow` / `continue_followups`.
Keys absent from a given response are `Option.none`-valued fields. -/
structure FlowResult where
  needs_followups : Bool
  follow_ups : List String := []
  followup_index : Nat
  max_followups : Int := FOLLOW_UP_COUNT
  target_followups : Int := FOLLOW_UP_COUNT
  answer_id : Option Nat := Option.none
  consultant_note : Option String := Option.none
  final_score : Option ℚ := Option.none
  original_score : Option ℚ := Option.none
  followup_scores : Option (List ℚ) := Option.none
  average_score : Option ℚ := Option.none
  feedback : Option String := Option.none
  evaluation_original : Option EvalResult := Option.none
  evaluation_followups : Option (List (String × String × EvalResult)) := Option.none
deriving Repr, DecidableEq

/-- Embedding of `handle_question_flow` (services.py lines 239-314): create
an `Answer` row (target 8, no scores), generate and persist the first
follow-up prompt at index 0, answer nothing, score nothing. -/
def handle_question_flow (topic user question main_answer : String)
    (language : String) (question_index : Option Int) (rand : Nat)
    (db : DB) : FlowResult × DB :=
  let _ := question_index
  let answer_id := db.nextId
  let db1 : DB :=
    { (db.setAnswer answer_id
        { answer_text := main_answer, target_followups := FOLLOW_UP_COUNT,
          completed_followups := 0 }) with nextId := db.nextId + 1 }
  let first_followup :=
    generate_next_follow_up_question topic user question main_answer language 0 rand
  let db2 : DB :=
    match db1.followups answer_id 0 with
    | some _ => db1
    | Option.none =>
      db1.setFollowup answer_id 0
        { question_text := first_followup, answer_text := "" }
  ({ needs_followups := true,
     follow_ups := [first_followup],
     followup_index := 1,
     max_followups := FOLLOW_UP_COUNT,
     target_followups := FOLLOW_UP_COUNT,
     answer_id := some answer_id,
     consultant_note := some
       "I need to ask you 8 clarification questions before I can evaluate your answer. Let's start!" },
   db2)

/-- The save/update loop of `continue_followups` (services.py lines 457-470):
upsert each supplied pair into the `FollowUp` row at its index — create the
row if absent, otherwise overwrite its question and answer text. -/
def upsertPairs (db : DB) (id : Nat) : List (String × String) → Nat → DB
  | [], _ => db
  | p :: rest, idx =>
    let db1 :=
      match db.followups id idx with
      | some f => db.setFollowup id idx { f with question_text := p.1, answer_text := p.2 }
      | Option.none => db.setFollowup id idx { question_text := p.1, answer_text := p.2 }
    upsertPairs db1 id rest (idx + 1)

/-- The score-writing loop of `continue_followups` (services.py lines
526-533): write score and feedback into the `FollowUp` row at each index; a
missing row raises `FollowUp.DoesNotExist`, which the code catches, so the
remaining updates are abandoned. -/
def scoreFollowups (db : DB) (id : Nat) : List EvalResult → Nat → DB
  | [], _ => db
  | e :: rest, idx =>
    match db.followups id idx with
    | Option.none => db
    | some f =>
      scoreFollowups
        (db.setFollowup id idx { f with score := some e.score, feedback := e.feedback })
        id rest (idx + 1)

/-- Embedding of `continue_followups` (services.py lines 418-586). -/
def continue_followups (topic user question main_answer : String)
    (followup_pairs : List (String × String)) (language : String)
    (target_followups : PyVal) (answer_id : Option Nat) (rand : Nat)
    (db : DB) : FlowResult × DB :=
  let normalized_pairs := followup_pairs
  let asked_count := normalized_pairs.length
  let plan_target := continuation_plan_target target_followups
  let _ := plan_target
  -- save the follow-ups supplied so far and the progress counter
  let db1 : DB :=
    if pyTruthyId answer_id then
      match answer_id with
      | Option.none => db
      | some id =>
        match db.answers id with
        | Option.none => db
        | some a =>
          let dbU := upsertPairs db id normalized_pairs 0
          dbU.setAnswer id { a with completed_followups := (asked_count : Int) }
    else db
  let should_finalize := FOLLOW_UP_COUNT ≤ (asked_count : Int)
  if should_finalize then
    let original_eval := evaluate_answer_individually question main_answer language
    let original_score := original_eval.score
    let followup_evals :=
      normalized_pairs.map (fun p => evaluate_answer_individually p.1 p.2 language)
    let followup_scores := followup_evals.map (fun e => e.score)
    let average_score := calculate_average_score original_score followup_scores
    let db2 : DB :=
      if pyTruthyId answer_id then
        match answer_id with
        | Option.none => db1
        | some id =>
          match db1.answers id with
          | Option.none => db1
          | some a =>
            let dbA := db1.setAnswer id
              { a with initial_score := some original_score,
                       initial_feedback := original_eval.feedback,
                       final_score := some average_score,
                       average_score := some average_score,
                       completed_followups := (asked_count : Int),
                       final_feedback :=
                         "Average score from 1 original answer and " ++
                           toString asked_count ++ " follow-ups: " ++
                           toString average_score ++ "/10" }
            scoreFollowups dbA id followup_evals 0
      else db1
    ({ needs_followups := false,
       followup_index := asked_count,
       max_followups := FOLLOW_UP_COUNT,
       target_followups := FOLLOW_UP_COUNT,
       final_score := some average_score,
       original_score := some original_score,
       followup_scores := some followup_scores,
       average_score := some average_score,
       feedback := some "Evaluation complete! Average score calculated from 1 original answer and the follow-ups.",
       evaluation_original := some original_eval,
       evaluation_followups := some
         (normalized_pairs.zip followup_evals |>.map (fun pe => (pe.1.1, pe.1.2, pe.2))) },
     db2)
  else
    let next_followup :=
      generate_next_follow_up_question topic user question main_answer language
        asked_count rand
    let db2 : DB :=
      if pyTruthyId answer_id then
        match answer_id with
        | Option.none => db1
        | some id =>
          match db1.answers id with
          | Option.none => db1
          | some _ =>
            match db1.followups id asked_count with
            | some _ => db1
            | Option.none =>
              db1.setFollowup id asked_count
                { question_text := next_followup, answer_text := "" }
      else db1
    ({ needs_followups := true,
       follow_ups := [next_followup],
       followup_index := asked_count + 1,
       max_followups := FOLLOW_UP_COUNT,
       target_followups := FOLLOW_UP_COUNT,
       consultant_note := some "Please answer this clarification question. After all 8 follow-ups, I'll evaluate everything together." },
     db2)

/-! ## Question-set generator (services.py lines 605-698) -/

/-- Character-level model of Python `template.format(topic=topic)` for
templates whose only replacement field is `{topic}`: scan left to right and
substitute each occurrence of the placeholder (the inserted value is not
rescanned). -/
def substTopicAux (t : List Char) : List Char → List Char
  | [] => []
  | '{' :: 't' :: 'o' :: 'p' :: 'i' :: 'c' :: '}' :: rest => t ++ substTopicAux t rest
  | c :: cs => c :: substTopicAux t cs

/-- Python `template.format(topic=topic)` on strings. -/
def formatTopic (template topic : String) : String :=
  ⟨substTopicAux topic.data template.data⟩

/-- The placeholder, as a character list. -/
def phChars : List Char := ['{', 't', 'o', 'p', 'i', 'c', '}']

/-- Does the character list contain the placeholder `\x7btopic\x7d`? -/
def hasPH : List Char → Bool
  | [] => false
  | '{' :: 't' :: 'o' :: 'p' :: 'i' :: 'c' :: '}' :: _ => true
  | _ :: cs => hasPH cs

/-- Split a character list around the first occurrence of the placeholder. -/
def splitAtPH : List Char → List Char × List Char
  | [] => ([], [])
  | '{' :: 't' :: 'o' :: 'p' :: 'i' :: 'c' :: '}' :: rest => ([], rest)
  | c :: cs => ((splitAtPH cs).1.cons c, (splitAtPH cs).2)

/-- Embedding of the `all_templates` pool inside `generate_question_set`
(services.py lines 620-690), verbatim from the source. -/
def all_templates : List String :=
  [ "Explain the core concept of {topic} and when you would use it.",
    "What is {topic} and what problem does it solve?",
    "Describe the fundamental principles behind {topic}.",
    "What are the key characteristics that define {topic}?",
    "Describe the main building blocks or architecture of a typical {topic} solution.",
    "What is the typical structure or design pattern used in {topic}?",
    "How is {topic} typically organized or structured?",
    "What components make up a standard {topic} implementation?",
    "Show a short code example that demonstrates {topic} in practice and explain it line by line.",
    "Write a simple example showing how {topic} works in code.",
    "Demonstrate {topic} with a practical code snippet and explain each part.",
    "Provide a code example that illustrates the basic usage of {topic}.",
    "What are the biggest advantages and disadvantages of using {topic} compared to alternatives?",
    "How does {topic} compare to similar technologies or approaches?",
    "What are the pros and cons of choosing {topic} for a project?",
    "When should you use {topic} versus other options?",
    "Describe a realistic real-world application where {topic} is a great fit and explain why.",
    "Give an example of a practical scenario where {topic} would be the best choice.",
    "What types of projects or problems benefit most from using {topic}?",
    "Describe a real-world use case for {topic} and explain the benefits.",
    "Explain common mistakes or pitfalls developers face when working with {topic}, and how to avoid them.",
    "What are the most frequent errors people make with {topic} and how can they be prevented?",
    "What should developers be careful about when using {topic}?",
    "What are common gotchas or traps when working with {topic}?",
    "How does {topic} interact with or depend on other key technologies in its ecosystem?",
    "What other technologies or tools work well with {topic}?",
    "How does {topic} fit into the broader technology landscape?",
    "What dependencies or integrations are typically needed for {topic}?",
    "Imagine a bug caused by incorrect use of {topic}. How would you debug and fix it?",
    "If something goes wrong with {topic}, what steps would you take to troubleshoot?",
    "Describe a debugging scenario involving {topic} and how you would resolve it.",
    "What debugging strategies work best for {topic}-related issues?",
    "How would you teach {topic} to a beginner who already knows basic programming?",
    "Explain {topic} as if you were teaching it to someone new to the concept.",
    "How would you introduce {topic} to a colleague who has never used it?",
    "What's the best way to explain {topic} to someone unfamiliar with it?",
    "Summarize {topic} in a concise paragraph, then list a few advanced tips or best practices.",
    "Give a brief overview of {topic} and share some expert-level recommendations.",
    "Provide a summary of {topic} along with some best practices for using it effectively.",
    "What are the key points about {topic} and what advanced techniques should developers know?",
    "What are the performance characteristics of {topic} and how can it be optimized?",
    "How does {topic} perform under different conditions and what affects its efficiency?",
    "What optimization techniques are relevant when working with {topic}?",
    "What security considerations should developers keep in mind when using {topic}?",
    "What are the security implications of using {topic} and how can risks be mitigated?",
    "How should {topic} be used securely in production environments?" ]

/-- Embedding of `generate_question_set` (services.py lines 605-698).
The requested count is clamped to `[1, QUESTION_COUNT]`; `random.sample`
of `min(safe_count, len(all_templates))` templates is modelled by the
`sample` argument listing the chosen pool indices (theorems constrain it to
pairwise distinct in-range indices of that exact length); each selected
template is then formatted with the topic. -/
def generate_question_set (topic : String) (count : Int) (language : String)
    (sample : List Nat) : List String :=
  let _ := language
  let safe_count := max 1 (min count QUESTION_COUNT)
  let _ := safe_count
  let selected_templates := sample.map (fun i => all_templates.getD i "")
  selected_templates.map (fun template => formatTopic template topic)

/-- All `FollowUp` rows of one `Answer` carry a score. -/
def FollowupsScored (db : DB) (id : Nat) : Prop :=
  ∀ idx f, db.followups id idx = some f → f.score.isSome

/-- The `FollowUp` rows at indices 0..7 of one `Answer` all exist. -/
def RowsBelowEightExist (db : DB) (id : Nat) : Prop :=
  ∀ idx, idx < 8 → (db.followups id idx).isSome

/-- Every `FollowUp` row at an index of at least 8 carries a score (such
rows are only ever created inside a finalizing call, which scores them). -/
def HighRowsScored (db : DB) : Prop :=
  ∀ id idx f, 8 ≤ idx → db.followups id idx = some f → f.score.isSome

/-- The flow invariant: a finalized `Answer` (one with `final_score` set)
has all its `FollowUp` rows scored and its first eight rows present, and
high-index rows are always scored. -/
def FlowInv (db : DB) : Prop :=
  (∀ id a, db.answers id = some a → a.final_score.isSome →
    FollowupsScored db id ∧ RowsBelowEightExist db id) ∧
  HighRowsScored db

/-- The stores reachable from the empty store through the two flow
operations, at arbitrary request arguments. -/
inductive Reachable : DB → Prop where
  | init : Reachable DB.empty
  | step_handle (topic user question main_answer language : String)
      (question_index : Option Int) (rand : Nat) (db : DB) :
      Reachable db →
      Reachable (handle_question_flow topic user question main_answer language
        question_index rand db).2
  | step_continue (topic user question main_answer : String)
      (pairs : List (String × String)) (language : String) (target : PyVal)
      (answer_id : Option Nat) (rand : Nat) (db : DB) :
      Reachable db →
      Reachable (continue_followups topic user question main_answer pairs
        language target answer_id rand db).2

/-- Concrete stores for exercising the reachability invariant: one initial
submission followed by one continuation call carrying eight answered
follow-up pairs. -/
def witnessPairs : List (String × String) :=
  [("q1", "a1"), ("q2", "a2"), ("q3", "a3"), ("q4", "a4"), ("q5", "a5"),
    ("q6", "a6"), ("q7", "a7"), ("q8", "a8")]

def witnessDb1 : DB :=
  (handle_question_flow "t" "u" "q" "a" "en" Option.none 0 DB.empty).2

def witnessDb2 : DB :=
  (continue_followups "t" "u" "q" "a" witnessPairs "en" PyVal.none (some 1) 0
    witnessDb1).2

/-- The coverage-penalty rule as the specification states it (for the C7
refinement theorem): collect the question's distinct lower-cased whitespace
tokens longer than 3 characters and take the fraction of them occurring as
case-insensitive substrings of the answer; ratio at least 0.6 gives penalty
0, at least 0.3 gives 1, anything smaller gives 2, and no qualifying terms
gives 0. -/
def coverage_penalty_spec (question answer : String) : ℚ :=
  let terms := (((pySplitWs question).map pyLower).filter (fun t => 3 < t.length)).dedup
  if terms.length = 0 then 0
  else
    let present := (terms.filter (fun t => pyContains (pyLower answer) t)).length
    let ratio : ℚ := (present : ℚ) / (terms.length : ℚ)
    if 3 / 5 ≤ ratio then 0
    else if 3 / 10 ≤ ratio then 1
    else 2

/-- A sufficient condition on two (prefix, suffix) template decompositions
under which no topic makes the two formatted strings equal: either the
combined lengths differ, or the prefixes differ at some shared position, or
the suffixes differ at some shared position from the right. -/
def safePair (x y : List Char × List Char) : Bool :=
  (x.1.length + x.2.length != y.1.length + y.2.length) ||
  ((x.1.zip y.1).any (fun ab => ab.1 != ab.2)) ||
  ((x.2.reverse.zip y.2.reverse).any (fun ab => ab.1 != ab.2))

/-- The (prefix, suffix) decomposition of every template in the pool. -/
def tParts : List (List Char × List Char) :=
  all_templates.map (fun T => splitAtPH T.data)

def pairwiseSafeAux : List (List Char × List Char) → Bool
  | [] => true
  | x :: xs => xs.all (fun y => safePair x y) && pairwiseSafeAux xs

/-! ## Substitution lemmas: formatted templates decompose around the topic -/

theorem substTopicAux_ph (t rest : List Char) :
    substTopicAux t (phChars ++ rest) = t ++ substTopicAux t rest := rfl

theorem substTopicAux_cons_nm (t : List Char) (c : Char) (cs : List Char)
    (hnm : ∀ rest, c = '{' → cs = 't' :: 'o' :: 'p' :: 'i' :: 'c' :: '}' :: rest → False) :
    substTopicAux t (c :: cs) = c :: substTopicAux t cs := by
  rw [substTopicAux.eq_def]
  split
  · simp_all
  · rename_i heq
    injection heq with h1 h2
    exact (hnm _ h1 h2).elim
  · rename_i heq
    injection heq with h1 h2
    subst h1; subst h2
    rfl

theorem hasPH_cons_nm (c : Char) (cs : List Char)
    (hnm : ∀ rest, c = '{' → cs = 't' :: 'o' :: 'p' :: 'i' :: 'c' :: '}' :: rest → False) :
    hasPH (c :: cs) = hasPH cs := by
  rw [hasPH.eq_def]
  split
  · simp_all
  · rename_i heq
    injection heq with h1 h2
    exact (hnm _ h1 h2).elim
  · rename_i heq
    injection heq with h1 h2
    subst h1; subst h2
    rfl

theorem splitAtPH_cons_nm (c : Char) (cs : List Char)
    (hnm : ∀ rest, c = '{' → cs = 't' :: 'o' :: 'p' :: 'i' :: 'c' :: '}' :: rest → False) :
    splitAtPH (c :: cs) = ((splitAtPH cs).1.cons c, (splitAtPH cs).2) := by
  rw [splitAtPH.eq_def]
  split
  · simp_all
  · rename_i heq
    injection heq with h1 h2
    exact (hnm _ h1 h2).elim
  · rename_i heq
    injection heq with h1 h2
    subst h1; subst h2
    rfl

theorem splitAtPH_recover (l : List Char) (h : hasPH l = true) :
    (splitAtPH l).1 ++ phChars ++ (splitAtPH l).2 = l := by
  induction l using splitAtPH.induct with
  | case1 => simp [hasPH] at h
  | case2 rest =>
    show (splitAtPH (phChars ++ rest)).1 ++ phChars ++ (splitAtPH (phChars ++ rest)).2 = _
    rfl
  | case3 c cs hnm ih =>
    rw [splitAtPH_cons_nm c cs hnm]
    rw [hasPH_cons_nm c cs hnm] at h
    show (c :: (splitAtPH cs).1) ++ phChars ++ (splitAtPH cs).2 = c :: cs
    simp only [List.cons_append]
    rw [ih h]

theorem splitAtPH_no_brace (l : List Char) (h1 : hasPH l = true)
    (h2 : l.count '{' = 1) :
    '{' ∉ (splitAtPH l).1 ∧ '{' ∉ (splitAtPH l).2 := by
  have hr := splitAtPH_recover l h1
  have hc : ((splitAtPH l).1 ++ phChars ++ (splitAtPH l).2).count '{' = 1 := by
    rw [hr]; exact h2
  simp only [List.count_append, phChars] at hc
  have hph : (['{', 't', 'o', 'p', 'i', 'c', '}'] : List Char).count '{' = 1 := by decide
  rw [hph] at hc
  constructor <;> rw [← List.count_eq_zero] <;> omega

theorem substTopicAux_append_free (t : List Char) (p rest : List Char)
    (hp : '{' ∉ p) : substTopicAux t (p ++ rest) = p ++ substTopicAux t rest := by
  induction p with
  | nil => rfl
  | cons c cs ih =>
    have hc : c ≠ '{' := fun e => hp (by simp [e])
    have hcs : '{' ∉ cs := fun m => hp (List.mem_cons_of_mem _ m)
    rw [List.cons_append, substTopicAux_cons_nm t c _ (fun _ e _ => hc e), ih hcs,
      List.cons_append]

theorem substTopicAux_free (t s : List Char) (hs : '{' ∉ s) :
    substTopicAux t s = s := by
  have h0 : substTopicAux t [] = ([] : List Char) := rfl
  have := substTopicAux_append_free t s [] hs
  simpa [h0] using this

theorem formatTopic_eq_parts (T topic : String) (h1 : hasPH T.data = true)
    (h2 : T.data.count '{' = 1) :
    (formatTopic T topic).data =
      (splitAtPH T.data).1 ++ topic.data ++ (splitAtPH T.data).2 := by
  obtain ⟨hp, hs⟩ := splitAtPH_no_brace T.data h1 h2
  show substTopicAux topic.data T.data = _
  conv_lhs => rw [← splitAtPH_recover T.data h1]
  rw [List.append_assoc, substTopicAux_append_free _ _ _ hp,
    substTopicAux_ph, substTopicAux_free _ _ hs, List.append_assoc]

/-! ## Two formatted templates never collide, for any topic -/

theorem append_ne_of_len (p1 s1 p2 s2 t : List Char)
    (h : p1.length + s1.length ≠ p2.length + s2.length) :
    p1 ++ t ++ s1 ≠ p2 ++ t ++ s2 := by
  intro e
  have := congrArg List.length e
  simp only [List.length_append] at this
  omega

theorem append_ne_of_zip (p1 p2 u v : List Char)
    (h : (p1.zip p2).any (fun ab => ab.1 != ab.2) = true) :
    p1 ++ u ≠ p2 ++ v := by
  induction p1 generalizing p2 with
  | nil => simp at h
  | cons a p1 ih =>
    cases p2 with
    | nil => simp at h
    | cons b p2 =>
      simp only [List.zip_cons_cons, List.any_cons] at h
      intro e
      simp only [List.cons_append, List.cons.injEq] at e
      rcases Bool.or_eq_true_iff.mp h with h1 | h2
      · exact absurd e.1 (by simpa using h1)
      · exact ih p2 h2 e.2

theorem append_ne_of_zip_rev (p1 s1 p2 s2 t : List Char)
    (h : (s1.reverse.zip s2.reverse).any (fun ab => ab.1 != ab.2) = true) :
    p1 ++ t ++ s1 ≠ p2 ++ t ++ s2 := by
  intro e
  have er := congrArg List.reverse e
  simp only [List.reverse_append] at er
  exact append_ne_of_zip s1.reverse s2.reverse _ _ h er

theorem safePair_sound (x y : List Char × List Char) (h : safePair x y = true)
    (t : List Char) : x.1 ++ t ++ x.2 ≠ y.1 ++ t ++ y.2 := by
  rw [safePair] at h
  rcases Bool.or_eq_true_iff.mp h with h12 | h3
  · rcases Bool.or_eq_true_iff.mp h12 with h1 | h2
    · exact append_ne_of_len _ _ _ _ t (by simpa using h1)
    · intro e
      have e2 : x.1 ++ (t ++ x.2) = y.1 ++ (t ++ y.2) := by
        simpa [List.append_assoc] using e
      exact append_ne_of_zip _ _ _ _ h2 e2
  · exact append_ne_of_zip_rev _ _ _ _ t h3

theorem pairwiseSafeAux_sound (l : List (List Char × List Char))
    (h : pairwiseSafeAux l = true) :
    ∀ i j, i < j → j < l.length →
      safePair (l.getD i default) (l.getD j default) = true := by
  induction l with
  | nil => intro i j _ hj; simp at hj
  | cons x xs ih =>
    rw [pairwiseSafeAux] at h
    obtain ⟨hall, hrec⟩ := Bool.and_eq_true_iff.mp h
    intro i j hij hj
    cases i with
    | zero =>
      cases j with
      | zero => omega
      | succ j2 =>
        have hj2 : j2 < xs.length := by simpa using hj
        have hmem : xs.getD j2 default ∈ xs := by
          rw [List.getD_eq_getElem _ _ hj2]
          exact List.getElem_mem hj2
        exact List.all_eq_true.mp hall _ hmem
    | succ i2 =>
      cases j with
      | zero => omega
      | succ j2 =>
        exact ih hrec i2 j2 (by omega) (by simpa using hj)

set_option maxHeartbeats 2000000 in
theorem all_templates_single_ph :
    all_templates.all (fun T => hasPH T.data && (T.data.count '{' == 1)) = true := by
  decide

set_option maxHeartbeats 4000000 in
theorem tParts_pairwise_safe : pairwiseSafeAux tParts = true := by
  decide

theorem template_facts (i : Nat) (hi : i < all_templates.length) :
    hasPH (all_templates.getD i "").data = true ∧
      (all_templates.getD i "").data.count '{' = 1 := by
  have h := List.all_eq_true.mp all_templates_single_ph
  have hmem : all_templates.getD i "" ∈ all_templates := by
    rw [List.getD_eq_getElem _ _ hi]
    exact List.getElem_mem hi
  have := h _ hmem
  rw [Bool.and_eq_true_iff] at this
  exact ⟨this.1, by simpa using this.2⟩

theorem tParts_getD (i : Nat) (hi : i < all_templates.length) :
    tParts.getD i default = splitAtPH (all_templates.getD i "").data := by
  have hlen : i < tParts.length := by simpa [tParts] using hi
  rw [List.getD_eq_getElem _ _ hlen, List.getD_eq_getElem _ _ hi]
  simp [tParts]

theorem formatted_templates_ne (i j : Nat) (hi : i < all_templates.length)
    (hj : j < all_templates.length) (hij : i ≠ j) (topic : String) :
    formatTopic (all_templates.getD i "") topic ≠
      formatTopic (all_templates.getD j "") topic := by
  have main : ∀ a b, a < b → b < all_templates.length →
      formatTopic (all_templates.getD a "") topic ≠
        formatTopic (all_templates.getD b "") topic := by
    intro a b hab hb
    have ha : a < all_templates.length := lt_trans hab hb
    have hsp := pairwiseSafeAux_sound tParts tParts_pairwise_safe a b hab
      (by simpa [tParts] using hb)
    rw [tParts_getD a ha, tParts_getD b hb] at hsp
    obtain ⟨ha1, ha2⟩ := template_facts a ha
    obtain ⟨hb1, hb2⟩ := template_facts b hb
    intro e
    have ed := congrArg String.data e
    rw [formatTopic_eq_parts _ _ ha1 ha2, formatTopic_eq_parts _ _ hb1 hb2] at ed
    exact safePair_sound _ _ hsp topic.data ed
  rcases Nat.lt_trichotomy i j with h | h | h
  · exact main i j h hj
  · exact absurd h hij
  · exact (main j i h hi).symm

/-- C9: for every topic and requested count, `generate_question_set` clamps
the requested count into [1, 10] and, for every possible outcome of the
without-replacement random sample, returns exactly that many questions,
pairwise distinct as strings (no duplicate template instantiation within
one call), each one a pool template with the topic substituted for its
placeholder. -/
theorem generate_question_set_clamped_distinct (topic : String) (count : Int)
    (language : String) (sample : List Nat)
    (hnd : sample.Nodup)
    (hrange : ∀ i ∈ sample, i < all_templates.length)
    (hlen : (sample.length : Int) =
      min (max 1 (min count QUESTION_COUNT)) (all_templates.length : Int)) :
    ((generate_question_set topic count language sample).length : Int) =
        max 1 (min count QUESTION_COUNT) ∧
    1 ≤ max 1 (min count QUESTION_COUNT) ∧
    max 1 (min count QUESTION_COUNT) ≤ 10 ∧
    (generate_question_set topic count language sample).Nodup ∧
    ∀ q ∈ generate_question_set topic count language sample,
      ∃ T ∈ all_templates, q = formatTopic T topic := by
  have hql : generate_question_set topic count language sample =
      (sample.map (fun i => all_templates.getD i "")).map
        (fun T => formatTopic T topic) := rfl
  have h46 : all_templates.length = 46 := rfl
  rw [h46] at hlen
  simp only [QUESTION_COUNT] at hlen ⊢
  refine ⟨?_, by omega, by omega, ?_, ?_⟩
  · rw [hql, List.length_map, List.length_map]
    omega
  · rw [hql, List.map_map]
    refine List.Nodup.map_on ?_ hnd
    intro x hx y hy hfe
    by_contra hne
    exact formatted_templates_ne x y (hrange x hx) (hrange y hy) hne topic hfe
  · intro q hq
    rw [hql, List.map_map] at hq
    obtain ⟨i, hi, rfl⟩ := List.mem_map.mp hq
    refine ⟨all_templates.getD i "", ?_, rfl⟩
    rw [List.getD_eq_getElem _ _ (hrange i hi)]
    exact List.getElem_mem (hrange i hi)

/-- Witness for C9 at topic "Lean", requested count 3 and the sample
[0, 1, 2]. -/
theorem generate_question_set_clamped_distinct_witness :
    ([0, 1, 2] : List Nat).Nodup ∧
    (∀ i ∈ ([0, 1, 2] : List Nat), i < all_templates.length) ∧
    ((([0, 1, 2] : List Nat).length : Int) =
      min (max 1 (min 3 QUESTION_COUNT)) (all_templates.length : Int)) ∧
    (((generate_question_set "Lean" 3 "en" [0, 1, 2]).length : Int) =
        max 1 (min 3 QUESTION_COUNT) ∧
      1 ≤ max 1 (min 3 QUESTION_COUNT) ∧
      max 1 (min 3 QUESTION_COUNT) ≤ 10 ∧
      (generate_question_set "Lean" 3 "en" [0, 1, 2]).Nodup ∧
      ∀ q ∈ generate_question_set "Lean" 3 "en" [0, 1, 2],
        ∃ T ∈ all_templates, q = formatTopic T "Lean") := by
  refine ⟨by decide, by decide, by decide, ?_⟩
  exact generate_question_set_clamped_distinct "Lean" 3 "en" [0, 1, 2]
    (by decide) (by decide) (by decide)

/-- C3: every `target_followups` value reaching the continuation flow
normalizes into [1, 8]; numeric values outside [1, 8] (0, -1, 20) become 8
or the nearest bound, and non-numeric values ("abc", None) become the
default 8 — totally, without raising. -/
theorem continuation_target_normalized :
    (∀ v : PyVal, 1 ≤ continuation_plan_target v ∧ continuation_plan_target v ≤ 8) ∧
    continuation_plan_target (.int 0) = 8 ∧
    continuation_plan_target (.int (-1)) = 1 ∧
    continuation_plan_target (.int 20) = 8 ∧
    continuation_plan_target (.str "abc") = 8 ∧
    continuation_plan_target .none = 8 := by
  refine ⟨?_, by decide, by decide, by decide, by decide, by decide⟩
  intro v
  have hb : ∀ w : PyVal, 1 ≤ _normalize_followup_target w ∧ _normalize_followup_target w ≤ 8 := by
    intro w
    cases w with
    | int n =>
      simp only [_normalize_followup_target, FOLLOW_UP_COUNT, MIN_FOLLOW_UP_COUNT]
      omega
    | str t =>
      simp only [_normalize_followup_target, FOLLOW_UP_COUNT, MIN_FOLLOW_UP_COUNT]
      cases h : pyIntOfString t with
      | none => simp [h]
      | some n => simp only [h]; omega
    | none => exact ⟨by norm_num [_normalize_followup_target, FOLLOW_UP_COUNT], le_refl _⟩
  exact hb (pyOr v (.int FOLLOW_UP_COUNT))

/-- C6: both scorer variants return score exactly 0 with feedback "No answer
was provided." whenever the trimmed answer has word count 0. -/
theorem empty_answer_scores_zero (topic user question answer language : String)
    (sub_dialogue : List (String × String))
    (h : (pySplitWs (pyStrip answer)).length = 0) :
    (evaluate_single_answer_with_attachment topic user question answer language
        sub_dialogue).score = 0 ∧
    (evaluate_single_answer_with_attachment topic user question answer language
        sub_dialogue).feedback = "No answer was provided." ∧
    (evaluate_answer_individually question answer language).score = 0 ∧
    (evaluate_answer_individually question answer language).feedback =
      "No answer was provided." := by
  unfold evaluate_single_answer_with_attachment evaluate_answer_individually
  simp [h, noAnswerFeedback]

/-- Witness for C6 at the whitespace-only answer. -/
theorem empty_answer_scores_zero_witness :
    (pySplitWs (pyStrip "   ")).length = 0 ∧
    (evaluate_single_answer_with_attachment "t" "u" "q" "   " "en" []).score = 0 ∧
    (evaluate_single_answer_with_attachment "t" "u" "q" "   " "en" []).feedback =
      "No answer was provided." ∧
    (evaluate_answer_individually "q" "   " "en").score = 0 ∧
    (evaluate_answer_individually "q" "   " "en").feedback = "No answer was provided." := by
  refine ⟨by decide, ?_⟩
  exact empty_answer_scores_zero "t" "u" "q" "   " "en" [] (by decide)

/-- C7: the coverage penalty computed by the code agrees, on every question
and answer, with the specification's tiered rule over the question's
distinct lower-cased tokens longer than 3 characters. -/
theorem coverage_penalty_matches_spec (question answer : String) :
    _coverage_penalty question answer = coverage_penalty_spec question answer := by
  have hcomm : ((pySplitWs question).map pyLower).filter (fun t => 3 < t.length)
      = ((pySplitWs question).filter (fun t => 3 < t.length)).map pyLower := by
    rw [List.filter_map]
    refine congrArg (List.map pyLower) (List.filter_congr ?_)
    intro x _
    have hl : (pyLower x).length = x.length := by
      show (x.data.map Char.toLower).length = x.data.length
      exact List.length_map _ _
    simp [Function.comp, hl]
  unfold _coverage_penalty coverage_penalty_spec
  rw [hcomm]
  rcases eq_or_ne (((pySplitWs question).filter (fun t => 3 < t.length)).map pyLower).dedup
      [] with he | he
  · rw [he]
    simp
  · rw [if_neg he, if_neg (fun hl => he (List.length_eq_zero.mp hl))]

/-- C8: every generated follow-up prompt is one of the four variants of the
category selected by `asked_count mod 10`, followed by the fixed context
suffix built from the topic and the trimmed first 60 characters of the
original question; and the category indices used for asked_count = 0..7 are
pairwise distinct. -/
theorem generate_next_follow_up_form (topic user oq oa language : String)
    (asked_count rand : Nat) :
    (∃ tmpl ∈ _followup_scaffolding.getD (asked_count % _followup_scaffolding.length) [],
      generate_next_follow_up_question topic user oq oa language asked_count rand =
        tmpl ++ " (Regarding " ++ topic ++ ": " ++ pyStrip (oq.take 60) ++ ")") ∧
    ((List.range 8).map (fun a => a % _followup_scaffolding.length)).Nodup := by
  constructor
  · have h10 : _followup_scaffolding.length = 10 := rfl
    have hmod : asked_count % _followup_scaffolding.length < 10 := by
      rw [h10]; exact Nat.mod_lt _ (by norm_num)
    have hlen4 : ∀ k, k < 10 → (_followup_scaffolding.getD k []).length = 4 := by decide
    have hcat := hlen4 _ hmod
    refine ⟨(_followup_scaffolding.getD (asked_count % _followup_scaffolding.length) []).getD
      (rand % (_followup_scaffolding.getD (asked_count % _followup_scaffolding.length) []).length)
      "", ?_, rfl⟩
    have hin : rand % (_followup_scaffolding.getD
        (asked_count % _followup_scaffolding.length) []).length <
        (_followup_scaffolding.getD (asked_count % _followup_scaffolding.length) []).length := by
      rw [hcat]; exact Nat.mod_lt _ (by norm_num)
    rw [List.getD_eq_getElem _ _ hin]
    exact List.getElem_mem hin
  · decide

/-- The coverage penalty is never negative. -/
theorem coverage_penalty_nonneg (q a : String) : 0 ≤ _coverage_penalty q a := by
  unfold _coverage_penalty
  dsimp only
  split
  · norm_num
  · split
    · norm_num
    · split <;> norm_num

/-- `round1` is monotone. -/
theorem round1_mono {a b : ℚ} (h : a ≤ b) : round1 a ≤ round1 b := by
  unfold round1
  have hr : round (a * 10) ≤ round (b * 10) := by
    rw [round_eq, round_eq]
    exact Int.floor_mono (by linarith)
  have : ((round (a * 10) : ℤ) : ℚ) ≤ ((round (b * 10) : ℤ) : ℚ) := by exact_mod_cast hr
  linarith

theorem round1_13_half : round1 (13 / 2 : ℚ) = 13 / 2 := by
  unfold round1
  rw [show (13 / 2 * 10 : ℚ) = ((65 : ℤ) : ℚ) by norm_num, round_intCast]
  norm_num

theorem round1_15_half : round1 (15 / 2 : ℚ) = 15 / 2 := by
  unfold round1
  rw [show (15 / 2 * 10 : ℚ) = ((75 : ℤ) : ℚ) by norm_num, round_intCast]
  norm_num

/-- Clamped-and-rounded scores below a sub-8 bound stay below it and land in
the non-"strong" feedback tiers. -/
theorem clamp_bound_conj (raw bound : ℚ) (hraw : raw ≤ bound) (hb8 : bound < 8)
    (hb0 : 0 ≤ bound) (hb : round1 bound = bound) :
    max 0 (min 10 (round1 raw)) ≤ bound ∧
    ((if 8 ≤ max 0 (min 10 (round1 raw)) then strongFeedback
      else if 5 ≤ max 0 (min 10 (round1 raw)) then reasonableFeedback
      else shallowFeedback) ≠ strongFeedback) := by
  have hr := le_trans (round1_mono hraw) (le_of_eq hb)
  have hsc : max 0 (min 10 (round1 raw)) ≤ bound :=
    max_le hb0 (le_trans (min_le_right _ _) hr)
  refine ⟨hsc, ?_⟩
  rw [if_neg (by linarith)]
  split <;> decide

/-- Score and feedback bounds for `evaluate_answer_individually`: the raw
score is at most 5 + 1.5 = 6.5, so the final score never reaches 8 and the
"strong" feedback tier is unreachable. -/
theorem eval_indiv_bounds (q a lang : String) :
    (evaluate_answer_individually q a lang).score ≤ 13 / 2 ∧
    (evaluate_answer_individually q a lang).feedback ≠ strongFeedback := by
  unfold evaluate_answer_individually
  dsimp only
  split
  · exact ⟨by norm_num, by decide⟩
  · refine clamp_bound_conj _ _ ?_ (by norm_num) (by norm_num) round1_13_half
    have h1 := min_le_left (5 : ℚ) (((pySplitWs (pyStrip a)).length : ℚ) / 15)
    have h0 := coverage_penalty_nonneg q (pyStrip a)
    split <;> split <;> linarith

/-- Score and feedback bounds for `evaluate_single_answer_with_attachment`:
the raw score is at most 5 + 1.5 + 1 = 7.5, so the final score never
reaches 8 and the "strong" feedback tier is unreachable. -/
theorem eval_attach_bounds (topic user q a lang : String)
    (sub : List (String × String)) :
    (evaluate_single_answer_with_attachment topic user q a lang sub).score ≤ 15 / 2 ∧
    (evaluate_single_answer_with_attachment topic user q a lang sub).feedback ≠
      strongFeedback := by
  unfold evaluate_single_answer_with_attachment
  dsimp only
  split
  · refine ⟨by norm_num, ?_⟩
    show noAnswerFeedback ≠ strongFeedback
    decide
  · refine clamp_bound_conj _ _ ?_ (by norm_num) (by norm_num) round1_15_half
    have h1 := min_le_left (5 : ℚ) (((pySplitWs (pyStrip a)).length : ℚ) / 15)
    have h0 := coverage_penalty_nonneg q (pyStrip a)
    have hbo : (if sub ≠ [] then min (1 : ℚ) ((sub.length : ℚ) * (1 / 4)) else 0) ≤ 1 := by
      split
      · exact min_le_left _ _
      · norm_num
    split <;> split <;> linarith

/-- C10: for every input, `evaluate_single_answer_with_attachment` returns a
score of at most 7.5 and `evaluate_answer_individually` a score of at most
6.5; in particular neither scorer ever reaches a score of 8, so the
"Strong, detailed answer with good structure and coverage of the question."
feedback string is never produced. -/
theorem scorer_score_ceiling (topic user question answer language : String)
    (sub_dialogue : List (String × String)) :
    (evaluate_single_answer_with_attachment topic user question answer language
        sub_dialogue).score ≤ 15 / 2 ∧
    (evaluate_single_answer_with_attachment topic user question answer language
        sub_dialogue).feedback ≠
      "Strong, detailed answer with good structure and coverage of the question." ∧
    (evaluate_answer_individually question answer language).score ≤ 13 / 2 ∧
    (evaluate_answer_individually question answer language).feedback ≠
      "Strong, detailed answer with good structure and coverage of the question." := by
  obtain ⟨ha1, ha2⟩ := eval_attach_bounds topic user question answer language sub_dialogue
  obtain ⟨hi1, hi2⟩ := eval_indiv_bounds question answer language
  exact ⟨ha1, ha2, hi1, hi2⟩

/-- C1: the continuation path finalizes exactly when at least 8 follow-up
pairs are supplied; the caller-supplied target value (whatever it
normalizes to) never gates finalization in either direction. -/
theorem continue_finalizes_iff_eight_pairs (topic user question main_answer : String)
    (pairs : List (String × String)) (language : String) (target : PyVal)
    (answer_id : Option Nat) (rand : Nat) (db : DB) :
    (continue_followups topic user question main_answer pairs language target
        answer_id rand db).1.needs_followups = false ↔ 8 ≤ pairs.length := by
  unfold continue_followups
  dsimp only
  split
  · rename_i h
    simp only [FOLLOW_UP_COUNT] at h
    simp
    omega
  · rename_i h
    simp only [FOLLOW_UP_COUNT] at h
    simp
    omega

theorem DB.answers_setAnswer (db : DB) (id : Nat) (a : AnswerRec) (i : Nat) :
    (db.setAnswer id a).answers i = if i = id then some a else db.answers i := rfl

theorem DB.followups_setAnswer (db : DB) (id : Nat) (a : AnswerRec) (i j : Nat) :
    (db.setAnswer id a).followups i j = db.followups i j := rfl

theorem DB.answers_setFollowup (db : DB) (id idx : Nat) (f : FollowUpRec) (i : Nat) :
    (db.setFollowup id idx f).answers i = db.answers i := rfl

theorem DB.followups_setFollowup (db : DB) (id idx : Nat) (f : FollowUpRec) (i j : Nat) :
    (db.setFollowup id idx f).followups i j =
      if i = id ∧ j = idx then some f else db.followups i j := rfl

/-- C5: `handle_question_flow` performs no scoring and always returns
`needs_followups = true` with exactly one generated follow-up (the
asked_count = 0 prompt), `followup_index = 1` and `max_followups = 8`; the
created `Answer` row carries no scores, no other `Answer` row changes, and
any `FollowUp` row it writes is unscored. -/
theorem handle_question_flow_initial (topic user question main_answer language : String)
    (question_index : Option Int) (rand : Nat) (db : DB) :
    (handle_question_flow topic user question main_answer language question_index
        rand db).1.needs_followups = true ∧
    (handle_question_flow topic user question main_answer language question_index
        rand db).1.follow_ups =
      [generate_next_follow_up_question topic user question main_answer language 0 rand] ∧
    (handle_question_flow topic user question main_answer language question_index
        rand db).1.followup_index = 1 ∧
    (handle_question_flow topic user question main_answer language question_index
        rand db).1.max_followups = 8 ∧
    (handle_question_flow topic user question main_answer language question_index
        rand db).2.answers db.nextId =
      some { answer_text := main_answer, target_followups := 8, completed_followups := 0 } ∧
    (∀ id, id ≠ db.nextId →
      (handle_question_flow topic user question main_answer language question_index
        rand db).2.answers id = db.answers id) ∧
    (∀ id idx f,
      (handle_question_flow topic user question main_answer language question_index
        rand db).2.followups id idx = some f →
      db.followups id idx = some f ∨ f.score = Option.none) := by
  unfold handle_question_flow
  dsimp only
  refine ⟨rfl, rfl, rfl, rfl, ?_, ?_, ?_⟩
  · split
    · simp [DB.answers_setAnswer, FOLLOW_UP_COUNT]
    · simp [DB.setFollowup, DB.answers_setAnswer, FOLLOW_UP_COUNT]
  · intro id hid
    split
    · simp [DB.answers_setAnswer, hid]
    · simp [DB.setFollowup, DB.answers_setAnswer, hid]
  · intro id idx f
    split
    · intro hf
      exact Or.inl hf
    · rw [DB.followups_setFollowup]
      split
      · intro hf
        injection hf with hf2
        right
        rw [← hf2]
      · intro hf
        exact Or.inl hf

/-- `calculate_average_score` with a nonempty follow-up list is the rounded
mean of the original score and the follow-up scores. -/
theorem calculate_average_score_mean (o : ℚ) (l : List ℚ) (h : l ≠ []) :
    calculate_average_score o l = round1 ((o + l.sum) / ((l.length : ℚ) + 1)) := by
  unfold calculate_average_score
  rw [if_neg h]
  dsimp only
  rw [List.sum_cons, List.length_cons]
  push_cast
  ring_nf

/-- C2 (amended): called with at least 8 follow-up pairs,
`continue_followups` finalizes — it scores the original answer with the
bonus-free scorer, scores each supplied pair against its own question text
(`asked_count` of them, so `asked_count + 1` scores in total; 9 exactly when
8 pairs are supplied), and returns `needs_followups = false` with
`average_score = round(mean(original :: followup_scores), 1)`. -/
theorem continue_finalize_average (topic user question main_answer : String)
    (pairs : List (String × String)) (language : String) (target : PyVal)
    (answer_id : Option Nat) (rand : Nat) (db : DB)
    (h8 : 8 ≤ pairs.length) :
    (continue_followups topic user question main_answer pairs language target
        answer_id rand db).1.needs_followups = false ∧
    (continue_followups topic user question main_answer pairs language target
        answer_id rand db).1.followup_scores =
      some (pairs.map (fun p => (evaluate_answer_individually p.1 p.2 language).score)) ∧
    (continue_followups topic user question main_answer pairs language target
        answer_id rand db).1.original_score =
      some (evaluate_answer_individually question main_answer language).score ∧
    (continue_followups topic user question main_answer pairs language target
        answer_id rand db).1.average_score =
      some (round1 (((evaluate_answer_individually question main_answer language).score +
          (pairs.map (fun p => (evaluate_answer_individually p.1 p.2 language).score)).sum) /
        ((pairs.length : ℚ) + 1))) := by
  have hne : pairs ≠ [] := by
    intro e
    rw [e] at h8
    simp at h8
  have hc : FOLLOW_UP_COUNT ≤ (pairs.length : Int) := by
    simp only [FOLLOW_UP_COUNT]
    exact_mod_cast h8
  unfold continue_followups
  dsimp only
  rw [if_pos hc]
  refine ⟨rfl, ?_, rfl, ?_⟩
  · rw [List.map_map]
    rfl
  · simp only [List.map_map]
    rw [calculate_average_score_mean _ _ (by simp [hne])]
    simp only [List.length_map]
    rfl

/-- Witness for C2 (amended) at 8 concrete pairs. -/
theorem continue_finalize_average_witness :
    8 ≤ ([("q1", "a1"), ("q2", "a2"), ("q3", "a3"), ("q4", "a4"), ("q5", "a5"),
      ("q6", "a6"), ("q7", "a7"), ("q8", "a8")] : List (String × String)).length ∧
    (continue_followups "t" "u" "q" "a"
        [("q1", "a1"), ("q2", "a2"), ("q3", "a3"), ("q4", "a4"), ("q5", "a5"),
          ("q6", "a6"), ("q7", "a7"), ("q8", "a8")] "en" PyVal.none Option.none 0
        DB.empty).1.needs_followups = false ∧
    (continue_followups "t" "u" "q" "a"
        [("q1", "a1"), ("q2", "a2"), ("q3", "a3"), ("q4", "a4"), ("q5", "a5"),
          ("q6", "a6"), ("q7", "a7"), ("q8", "a8")] "en" PyVal.none Option.none 0
        DB.empty).1.followup_scores =
      some (([("q1", "a1"), ("q2", "a2"), ("q3", "a3"), ("q4", "a4"), ("q5", "a5"),
          ("q6", "a6"), ("q7", "a7"), ("q8", "a8")] : List (String × String)).map
        (fun p => (evaluate_answer_individually p.1 p.2 "en").score)) := by
  refine ⟨by decide, ?_, ?_⟩
  · exact (continue_finalize_average "t" "u" "q" "a" _ "en" PyVal.none Option.none 0
      DB.empty (by decide)).1
  · exact (continue_finalize_average "t" "u" "q" "a" _ "en" PyVal.none Option.none 0
      DB.empty (by decide)).2.1

/-- Counterexample to C2 as frozen: with 9 supplied pairs (asked_count = 9,
which satisfies asked_count >= 8), the finalize branch evaluates 9
follow-ups, not 8 — `followup_scores` has 9 entries, so "producing 9
independent scores" (1 original + 8 follow-ups) is false at this input. -/
theorem continue_nine_pairs_not_eight_followup_scores :
    ¬ ((continue_followups "t" "u" "q" "a"
        [("q1", "a1"), ("q2", "a2"), ("q3", "a3"), ("q4", "a4"), ("q5", "a5"),
          ("q6", "a6"), ("q7", "a7"), ("q8", "a8"), ("q9", "a9")] "en" PyVal.none
        Option.none 0 DB.empty).1.followup_scores.map List.length = some 8) := by
  with_unfolding_all decide

/-! ### Lemmas about the follow-up upsert loop -/

theorem upsertPairs_answers (db : DB) (id : Nat) (ps : List (String × String)) (k : Nat) :
    (upsertPairs db id ps k).answers = db.answers := by
  induction ps generalizing db k with
  | nil => rfl
  | cons p rest ih =>
    simp only [upsertPairs]
    cases hdb : db.followups id k with
    | some f => exact ih _ _
    | none => exact ih _ _

theorem upsertPairs_other (db : DB) (id : Nat) (ps : List (String × String)) (k : Nat)
    (i j : Nat) (h : i ≠ id ∨ j < k ∨ k + ps.length ≤ j) :
    (upsertPairs db id ps k).followups i j = db.followups i j := by
  induction ps generalizing db k with
  | nil => rfl
  | cons p rest ih =>
    have hlen : (p :: rest).length = rest.length + 1 := rfl
    have hrest : i ≠ id ∨ j < k + 1 ∨ (k + 1) + rest.length ≤ j := by
      rcases h with h | h | h
      · exact Or.inl h
      · exact Or.inr (Or.inl (by omega))
      · rw [hlen] at h
        exact Or.inr (Or.inr (by omega))
    have hnotk : ¬ (i = id ∧ j = k) := by
      rintro ⟨rfl, rfl⟩
      rcases h with h | h | h
      · exact h rfl
      · omega
      · rw [hlen] at h
        omega
    simp only [upsertPairs]
    cases hdb : db.followups id k with
    | some f =>
      rw [ih _ _ hrest, DB.followups_setFollowup, if_neg hnotk]
    | none =>
      rw [ih _ _ hrest, DB.followups_setFollowup, if_neg hnotk]

theorem upsertPairs_in_range (db : DB) (id : Nat) (ps : List (String × String)) (k : Nat)
    (j : Nat) (h1 : k ≤ j) (h2 : j < k + ps.length) :
    ((upsertPairs db id ps k).followups id j).isSome := by
  induction ps generalizing db k with
  | nil => simp at h2; omega
  | cons p rest ih =>
    simp only [upsertPairs]
    by_cases hj : j = k
    · subst hj
      cases hdb : db.followups id j with
      | some f =>
        rw [upsertPairs_other _ _ _ _ _ _ (Or.inr (Or.inl (by omega))),
          DB.followups_setFollowup, if_pos ⟨rfl, rfl⟩]
        rfl
      | none =>
        rw [upsertPairs_other _ _ _ _ _ _ (Or.inr (Or.inl (by omega))),
          DB.followups_setFollowup, if_pos ⟨rfl, rfl⟩]
        rfl
    · have hlen : (p :: rest).length = rest.length + 1 := rfl
      rw [hlen] at h2
      cases hdb : db.followups id k with
      | some f => exact ih _ _ (by omega) (by omega)
      | none => exact ih _ _ (by omega) (by omega)

theorem upsertPairs_score (db : DB) (id : Nat) (ps : List (String × String)) (k : Nat)
    (i j : Nat) (f : FollowUpRec)
    (hf : (upsertPairs db id ps k).followups i j = some f) :
    (∃ g, db.followups i j = some g ∧ f.score = g.score) ∨
      (db.followups i j = Option.none ∧ f.score = Option.none) := by
  induction ps generalizing db k with
  | nil =>
    exact Or.inl ⟨f, hf, rfl⟩
  | cons p rest ih =>
    simp only [upsertPairs] at hf
    cases hdb : db.followups id k with
    | some g0 =>
      rw [hdb] at hf
      rcases ih _ _ hf with ⟨g, hg, he⟩ | ⟨hnone, he⟩
      · rw [DB.followups_setFollowup] at hg
        by_cases hij : i = id ∧ j = k
        · rw [if_pos hij] at hg
          injection hg with hg2
          obtain ⟨rfl, rfl⟩ := hij
          refine Or.inl ⟨g0, hdb, ?_⟩
          rw [he, ← hg2]
        · rw [if_neg hij] at hg
          exact Or.inl ⟨g, hg, he⟩
      · rw [DB.followups_setFollowup] at hnone
        by_cases hij : i = id ∧ j = k
        · rw [if_pos hij] at hnone
          cases hnone
        · rw [if_neg hij] at hnone
          exact Or.inr ⟨hnone, he⟩
    | none =>
      rw [hdb] at hf
      rcases ih _ _ hf with ⟨g, hg, he⟩ | ⟨hnone, he⟩
      · rw [DB.followups_setFollowup] at hg
        by_cases hij : i = id ∧ j = k
        · rw [if_pos hij] at hg
          injection hg with hg2
          obtain ⟨rfl, rfl⟩ := hij
          refine Or.inr ⟨hdb, ?_⟩
          rw [he, ← hg2]
        · rw [if_neg hij] at hg
          exact Or.inl ⟨g, hg, he⟩
      · rw [DB.followups_setFollowup] at hnone
        by_cases hij : i = id ∧ j = k
        · rw [if_pos hij] at hnone
          cases hnone
        · rw [if_neg hij] at hnone
          exact Or.inr ⟨hnone, he⟩

theorem upsertPairs_keeps (db : DB) (id : Nat) (ps : List (String × String)) (k : Nat)
    (i j : Nat) (h : (db.followups i j).isSome) :
    ((upsertPairs db id ps k).followups i j).isSome := by
  by_cases hi : i = id
  · subst hi
    by_cases hr : k ≤ j ∧ j < k + ps.length
    · exact upsertPairs_in_range _ _ _ _ _ hr.1 hr.2
    · rw [upsertPairs_other _ _ _ _ _ _ ?_]
      · exact h
      · rcases Nat.lt_or_ge j k with hlt | hge
        · exact Or.inr (Or.inl hlt)
        · refine Or.inr (Or.inr ?_)
          omega
  · rw [upsertPairs_other _ _ _ _ _ _ (Or.inl hi)]
    exact h

/-! ### Lemmas about the score-writing loop -/

theorem scoreFollowups_answers (db : DB) (id : Nat) (es : List EvalResult) (k : Nat) :
    (scoreFollowups db id es k).answers = db.answers := by
  induction es generalizing db k with
  | nil => rfl
  | cons e rest ih =>
    simp only [scoreFollowups]
    cases hdb : db.followups id k with
    | some f => exact ih _ _
    | none => rfl

theorem scoreFollowups_other (db : DB) (id : Nat) (es : List EvalResult) (k : Nat)
    (i j : Nat) (h : i ≠ id ∨ j < k ∨ k + es.length ≤ j) :
    (scoreFollowups db id es k).followups i j = db.followups i j := by
  induction es generalizing db k with
  | nil => rfl
  | cons e rest ih =>
    have hlen : (e :: rest).length = rest.length + 1 := rfl
    have hrest : i ≠ id ∨ j < k + 1 ∨ (k + 1) + rest.length ≤ j := by
      rcases h with h | h | h
      · exact Or.inl h
      · exact Or.inr (Or.inl (by omega))
      · rw [hlen] at h
        exact Or.inr (Or.inr (by omega))
    have hnotk : ¬ (i = id ∧ j = k) := by
      rintro ⟨rfl, rfl⟩
      rcases h with h | h | h
      · exact h rfl
      · omega
      · rw [hlen] at h
        omega
    simp only [scoreFollowups]
    cases hdb : db.followups id k with
    | some f =>
      rw [ih _ _ hrest, DB.followups_setFollowup, if_neg hnotk]
    | none => rfl

theorem scoreFollowups_scored (db : DB) (id : Nat) (es : List EvalResult) (k : Nat)
    (hpres : ∀ m, m < es.length → (db.followups id (k + m)).isSome)
    (j : Nat) (h1 : k ≤ j) (h2 : j < k + es.length) :
    ∃ f, (scoreFollowups db id es k).followups id j = some f ∧ f.score.isSome := by
  induction es generalizing db k with
  | nil => simp at h2; omega
  | cons e rest ih =>
    have h0 := hpres 0 (by simp)
    rw [Nat.add_zero] at h0
    cases hdb : db.followups id k with
    | none => rw [hdb] at h0; cases h0
    | some f0 =>
      simp only [scoreFollowups, hdb]
      by_cases hj : j = k
      · subst hj
        rw [scoreFollowups_other _ _ _ _ _ _ (Or.inr (Or.inl (by omega))),
          DB.followups_setFollowup, if_pos ⟨rfl, rfl⟩]
        exact ⟨_, rfl, rfl⟩
      · have hlen : (e :: rest).length = rest.length + 1 := rfl
        rw [hlen] at h2
        refine ih _ _ ?_ (by omega) (by omega)
        intro m hm
        rw [DB.followups_setFollowup, if_neg (by rintro ⟨_, h⟩; omega)]
        have := hpres (m + 1) (by rw [hlen]; omega)
        rw [show k + 1 + m = k + (m + 1) by omega]
        exact this

theorem scoreFollowups_keeps_scored (db : DB) (id : Nat) (es : List EvalResult) (k : Nat)
    (i j : Nat) (f : FollowUpRec)
    (hf : (scoreFollowups db id es k).followups i j = some f) :
    (∃ g, db.followups i j = some g ∧ (f = g ∨ f.score.isSome)) := by
  induction es generalizing db k with
  | nil => exact ⟨f, hf, Or.inl rfl⟩
  | cons e rest ih =>
    simp only [scoreFollowups] at hf
    cases hdb : db.followups id k with
    | none =>
      rw [hdb] at hf
      exact ⟨f, hf, Or.inl rfl⟩
    | some f0 =>
      rw [hdb] at hf
      obtain ⟨g, hg, hor⟩ := ih _ _ hf
      rw [DB.followups_setFollowup] at hg
      by_cases hij : i = id ∧ j = k
      · rw [if_pos hij] at hg
        injection hg with hg2
        obtain ⟨rfl, rfl⟩ := hij
        refine ⟨f0, hdb, Or.inr ?_⟩
        rcases hor with rfl | hs
        · rw [← hg2]
          rfl
        · exact hs
      · rw [if_neg hij] at hg
        exact ⟨g, hg, hor⟩

/-! ### The flow invariant is preserved by both operations -/

/-- Writing an `Answer` row before running the score loop does not change
which `FollowUp` rows the loop produces. -/
theorem scoreFollowups_setAnswer_followups (db : DB) (idA : Nat) (aa : AnswerRec)
    (id : Nat) (es : List EvalResult) (k : Nat) :
    (scoreFollowups (db.setAnswer idA aa) id es k).followups =
      (scoreFollowups db id es k).followups := by
  induction es generalizing db k with
  | nil => rfl
  | cons e rest ih =>
    simp only [scoreFollowups]
    cases hdb : db.followups id k with
    | none =>
      have hdb2 : (db.setAnswer idA aa).followups id k = Option.none := hdb
      rw [hdb2]
      rfl
    | some f =>
      have hdb2 : (db.setAnswer idA aa).followups id k = some f := hdb
      rw [hdb2]
      exact ih (db.setFollowup id k { f with score := some e.score, feedback := e.feedback })
        (k + 1)

theorem FlowInv_continue (topic user question main_answer : String)
    (pairs : List (String × String)) (language : String) (target : PyVal)
    (answer_id : Option Nat) (rand : Nat) (db : DB) (hinv : FlowInv db) :
    FlowInv (continue_followups topic user question main_answer pairs language
      target answer_id rand db).2 := by
  obtain ⟨hans, hhigh⟩ := hinv
  rcases answer_id with _ | id
  · unfold continue_followups
    dsimp only
    simp only [pyTruthyId, Bool.false_eq_true, if_false]
    split <;> exact ⟨hans, hhigh⟩
  · by_cases h0 : id = 0
    · subst h0
      unfold continue_followups
      dsimp only
      simp only [pyTruthyId, decide_not, decide_True, Bool.not_true, Bool.false_eq_true,
        if_false]
      split <;> exact ⟨hans, hhigh⟩
    · cases ha : db.answers id with
      | none =>
        unfold continue_followups
        dsimp only
        simp only [pyTruthyId, h0, decide_not, decide_False, Bool.not_false, if_true, ha]
        split <;> exact ⟨hans, hhigh⟩
      | some a =>
        unfold continue_followups
        dsimp only
        simp only [pyTruthyId, h0, decide_not, decide_False, Bool.not_false, if_true,
          DB.answers_setAnswer, upsertPairs_answers, eq_self_iff_true, ha, List.map_map]
        split
        -- finalize branch: at least 8 pairs were supplied
        next hfin =>
          simp only [FOLLOW_UP_COUNT] at hfin
          have hn8 : 8 ≤ pairs.length := by omega
          dsimp only
          have hlen : (pairs.map (fun p =>
              evaluate_answer_individually p.1 p.2 language)).length = pairs.length :=
            List.length_map _ _
          have hpresU : ∀ m, m < (pairs.map (fun p =>
              evaluate_answer_individually p.1 p.2 language)).length →
              ((upsertPairs db id pairs 0).followups id (0 + m)).isSome := by
            intro m hm
            rw [hlen] at hm
            exact upsertPairs_in_range db id pairs 0 (0 + m) (by omega) (by omega)
          constructor
          · intro id2 a2 ha2 hfin2
            rw [scoreFollowups_answers] at ha2
            simp only [DB.answers_setAnswer, upsertPairs_answers] at ha2
            by_cases hii : id2 = id
            · subst hii
              constructor
              · intro idx f hf
                rw [scoreFollowups_setAnswer_followups,
                  scoreFollowups_setAnswer_followups] at hf
                by_cases hlt : idx < pairs.length
                · obtain ⟨f2, hf2, hs2⟩ := scoreFollowups_scored _ _ _ _ hpresU idx
                    (by omega) (by rw [hlen]; omega)
                  rw [hf] at hf2
                  injection hf2 with hf3
                  rw [hf3]
                  exact hs2
                · rw [scoreFollowups_other _ _ _ _ _ _
                    (Or.inr (Or.inr (by rw [hlen]; omega)))] at hf
                  rw [upsertPairs_other _ _ _ _ _ _ (Or.inr (Or.inr (by omega)))] at hf
                  exact hhigh id2 idx f (by omega) hf
              · intro idx h8
                rw [scoreFollowups_setAnswer_followups,
                  scoreFollowups_setAnswer_followups]
                obtain ⟨f2, hf2, _⟩ := scoreFollowups_scored _ _ _ _ hpresU idx
                  (by omega) (by rw [hlen]; omega)
                rw [hf2]
                rfl
            · rw [if_neg hii, if_neg hii] at ha2
              obtain ⟨hS, hR⟩ := hans id2 a2 ha2 hfin2
              constructor
              · intro idx f hf
                rw [scoreFollowups_setAnswer_followups,
                  scoreFollowups_setAnswer_followups,
                  scoreFollowups_other _ _ _ _ _ _ (Or.inl hii),
                  upsertPairs_other _ _ _ _ _ _ (Or.inl hii)] at hf
                exact hS idx f hf
              · intro idx h8
                rw [scoreFollowups_setAnswer_followups,
                  scoreFollowups_setAnswer_followups,
                  scoreFollowups_other _ _ _ _ _ _ (Or.inl hii),
                  upsertPairs_other _ _ _ _ _ _ (Or.inl hii)]
                exact hR idx h8
          · intro i j f h8 hf
            rw [scoreFollowups_setAnswer_followups,
              scoreFollowups_setAnswer_followups] at hf
            by_cases hii : i = id
            · subst hii
              by_cases hlt : j < pairs.length
              · obtain ⟨f2, hf2, hs2⟩ := scoreFollowups_scored _ _ _ _ hpresU j
                  (by omega) (by rw [hlen]; omega)
                rw [hf] at hf2
                injection hf2 with hf3
                rw [hf3]
                exact hs2
              · rw [scoreFollowups_other _ _ _ _ _ _
                  (Or.inr (Or.inr (by rw [hlen]; omega))),
                  upsertPairs_other _ _ _ _ _ _ (Or.inr (Or.inr (by omega)))] at hf
                exact hhigh i j f h8 hf
            · rw [scoreFollowups_other _ _ _ _ _ _ (Or.inl hii),
                upsertPairs_other _ _ _ _ _ _ (Or.inl hii)] at hf
              exact hhigh i j f h8 hf
        -- continuation branch: fewer than 8 pairs, ask the next follow-up
        next hnotfin =>
          simp only [FOLLOW_UP_COUNT] at hnotfin
          have hn7 : pairs.length ≤ 7 := by omega
          dsimp only
          split
          -- the prompt row for the next index already exists
          next f0 heq =>
            constructor
            · intro id2 a2 ha2 hfin2
              simp only [DB.answers_setAnswer, upsertPairs_answers] at ha2
              by_cases hii : id2 = id
              · subst hii
                rw [if_pos rfl] at ha2
                injection ha2 with ha3
                have hfina : a.final_score.isSome := by
                  rw [← ha3] at hfin2
                  exact hfin2
                obtain ⟨hS, hR⟩ := hans id2 a ha hfina
                constructor
                · intro idx f hf
                  have hf2 : (upsertPairs db id2 pairs 0).followups id2 idx = some f := hf
                  rcases upsertPairs_score db id2 pairs 0 id2 idx f hf2 with
                    ⟨g, hg, he⟩ | ⟨hnone, he⟩
                  · rw [he]
                    exact hS idx g hg
                  · by_cases hr : idx < pairs.length
                    · have hex := hR idx (by omega)
                      rw [hnone] at hex
                      simp at hex
                    · rw [upsertPairs_other _ _ _ _ _ _
                        (Or.inr (Or.inr (by omega)))] at hf2
                      rw [hnone] at hf2
                      simp at hf2
                · intro idx h8
                  show ((upsertPairs db id2 pairs 0).followups id2 idx).isSome
                  exact upsertPairs_keeps _ _ _ _ _ _ (hR idx h8)
              · rw [if_neg hii] at ha2
                obtain ⟨hS, hR⟩ := hans id2 a2 ha2 hfin2
                constructor
                · intro idx f hf
                  have hf2 : (upsertPairs db id pairs 0).followups id2 idx = some f := hf
                  rw [upsertPairs_other _ _ _ _ _ _ (Or.inl hii)] at hf2
                  exact hS idx f hf2
                · intro idx h8
                  show ((upsertPairs db id pairs 0).followups id2 idx).isSome
                  rw [upsertPairs_other _ _ _ _ _ _ (Or.inl hii)]
                  exact hR idx h8
            · intro i j f h8 hf
              have hf2 : (upsertPairs db id pairs 0).followups i j = some f := hf
              by_cases hii : i = id
              · subst hii
                rw [upsertPairs_other _ _ _ _ _ _ (Or.inr (Or.inr (by omega)))] at hf2
                exact hhigh i j f h8 hf2
              · rw [upsertPairs_other _ _ _ _ _ _ (Or.inl hii)] at hf2
                exact hhigh i j f h8 hf2
          -- the prompt row is created fresh at index `pairs.length`
          next heq =>
            constructor
            · intro id2 a2 ha2 hfin2
              have ha3 : ((upsertPairs db id pairs 0).setAnswer id
                  { answer_text := a.answer_text, initial_score := a.initial_score,
                    final_score := a.final_score, average_score := a.average_score,
                    initial_feedback := a.initial_feedback,
                    final_feedback := a.final_feedback,
                    target_followups := a.target_followups,
                    completed_followups := (pairs.length : Int) }).answers id2 =
                  some a2 := ha2
              simp only [DB.answers_setAnswer, upsertPairs_answers] at ha3
              by_cases hii : id2 = id
              · subst hii
                rw [if_pos rfl] at ha3
                injection ha3 with ha4
                have hfina : a.final_score.isSome := by
                  rw [← ha4] at hfin2
                  exact hfin2
                obtain ⟨hS, hR⟩ := hans id2 a ha hfina
                exfalso
                have hex := upsertPairs_keeps db id2 pairs 0 id2 pairs.length
                  (hR pairs.length (by omega))
                have heq2 : (upsertPairs db id2 pairs 0).followups id2 pairs.length =
                    Option.none := heq
                rw [heq2] at hex
                simp at hex
              · rw [if_neg hii] at ha3
                obtain ⟨hS, hR⟩ := hans id2 a2 ha3 hfin2
                constructor
                · intro idx f hf
                  rw [DB.followups_setFollowup,
                    if_neg (by rintro ⟨rfl, _⟩; exact hii rfl)] at hf
                  have hf2 : (upsertPairs db id pairs 0).followups id2 idx = some f := hf
                  rw [upsertPairs_other _ _ _ _ _ _ (Or.inl hii)] at hf2
                  exact hS idx f hf2
                · intro idx h8
                  rw [DB.followups_setFollowup,
                    if_neg (by rintro ⟨rfl, _⟩; exact hii rfl)]
                  show ((upsertPairs db id pairs 0).followups id2 idx).isSome
                  rw [upsertPairs_other _ _ _ _ _ _ (Or.inl hii)]
                  exact hR idx h8
            · intro i j f h8 hf
              rw [DB.followups_setFollowup] at hf
              by_cases hij : i = id ∧ j = pairs.length
              · obtain ⟨hi1, hj1⟩ := hij
                omega
              · rw [if_neg hij] at hf
                have hf2 : (upsertPairs db id pairs 0).followups i j = some f := hf
                by_cases hii : i = id
                · subst hii
                  rw [upsertPairs_other _ _ _ _ _ _
                    (Or.inr (Or.inr (by omega)))] at hf2
                  exact hhigh i j f h8 hf2
                · rw [upsertPairs_other _ _ _ _ _ _ (Or.inl hii)] at hf2
                  exact hhigh i j f h8 hf2

theorem FlowInv_handle (topic user question main_answer language : String)
    (question_index : Option Int) (rand : Nat) (db : DB) (hinv : FlowInv db) :
    FlowInv (handle_question_flow topic user question main_answer language
      question_index rand db).2 := by
  obtain ⟨hans, hhigh⟩ := hinv
  unfold handle_question_flow
  dsimp only
  split
  -- a FollowUp row at (nextId, 0) already existed: no row write
  next f0 heq =>
    constructor
    · intro id2 a2 ha2 hfin2
      simp only [DB.answers_setAnswer] at ha2
      by_cases hii : id2 = db.nextId
      · subst hii
        rw [if_pos rfl] at ha2
        injection ha2 with ha3
        rw [← ha3] at hfin2
        simp at hfin2
      · rw [if_neg hii] at ha2
        obtain ⟨hS, hR⟩ := hans id2 a2 ha2 hfin2
        exact ⟨fun idx f hf => hS idx f hf, fun idx h8 => hR idx h8⟩
    · intro i j f h8 hf
      exact hhigh i j f h8 hf
  -- the first FollowUp prompt row is created, unscored, at index 0
  next heq =>
    constructor
    · intro id2 a2 ha2 hfin2
      simp only [DB.answers_setFollowup, DB.answers_setAnswer] at ha2
      by_cases hii : id2 = db.nextId
      · subst hii
        rw [if_pos rfl] at ha2
        injection ha2 with ha3
        rw [← ha3] at hfin2
        simp at hfin2
      · rw [if_neg hii] at ha2
        obtain ⟨hS, hR⟩ := hans id2 a2 ha2 hfin2
        constructor
        · intro idx f hf
          rw [DB.followups_setFollowup,
            if_neg (by rintro ⟨rfl, _⟩; exact hii rfl)] at hf
          exact hS idx f hf
        · intro idx h8
          rw [DB.followups_setFollowup,
            if_neg (by rintro ⟨rfl, _⟩; exact hii rfl)]
          exact hR idx h8
    · intro i j f h8 hf
      rw [DB.followups_setFollowup] at hf
      by_cases hij : i = db.nextId ∧ j = 0
      · obtain ⟨hi1, hj1⟩ := hij
        omega
      · rw [if_neg hij] at hf
        exact hhigh i j f h8 hf

theorem FlowInv_empty : FlowInv DB.empty := by
  constructor
  · intro id a ha _
    simp [DB.empty] at ha
  · intro i j f _ hf
    simp [DB.empty] at hf

/-- Every reachable store satisfies the flow invariant. -/
theorem reachable_flowInv (db : DB) (hr : Reachable db) : FlowInv db := by
  induction hr with
  | init => exact FlowInv_empty
  | step_handle topic user question main_answer language question_index rand db2 _ ih =>
    exact FlowInv_handle topic user question main_answer language question_index
      rand db2 ih
  | step_continue topic user question main_answer pairs language target aid rand db2 _ ih =>
    exact FlowInv_continue topic user question main_answer pairs language target
      aid rand db2 ih

/-- C4: in every store reachable through the flow operations
(`handle_question_flow`, `continue_followups`), no persisted `Answer` row
has `final_score` set while one of its `FollowUp` rows has a null score —
scoring of an answer and its follow-ups is all-or-nothing at finalization. -/
theorem reachable_scoring_all_or_nothing (db : DB) (hr : Reachable db)
    (id : Nat) (a : AnswerRec) (ha : db.answers id = some a)
    (hfin : a.final_score.isSome) (idx : Nat) (f : FollowUpRec)
    (hf : db.followups id idx = some f) : f.score.isSome :=
  ((reachable_flowInv db hr).1 id a ha hfin).1 idx f hf

set_option maxRecDepth 8000 in
set_option maxHeartbeats 2000000 in
/-- Witness for C4 at the store reached by one initial submission followed
by a finalizing continuation with eight pairs. -/
theorem reachable_scoring_all_or_nothing_witness :
    Reachable witnessDb2 ∧
    witnessDb2.answers 1 = some ((witnessDb2.answers 1).getD
      { answer_text := "", target_followups := 0, completed_followups := 0 }) ∧
    ((witnessDb2.answers 1).getD
      { answer_text := "", target_followups := 0, completed_followups := 0 }).final_score.isSome ∧
    witnessDb2.followups 1 0 = some ((witnessDb2.followups 1 0).getD
      { question_text := "", answer_text := "" }) ∧
    ((witnessDb2.followups 1 0).getD
      { question_text := "", answer_text := "" }).score.isSome := by
  have hre : Reachable witnessDb2 :=
    Reachable.step_continue "t" "u" "q" "a" witnessPairs "en" PyVal.none (some 1) 0
      witnessDb1
      (Reachable.step_handle "t" "u" "q" "a" "en" Option.none 0 DB.empty Reachable.init)
  have h1 : witnessDb2.answers 1 = some ((witnessDb2.answers 1).getD
      { answer_text := "", target_followups := 0, completed_followups := 0 }) := by
    with_unfolding_all decide
  have h2 : ((witnessDb2.answers 1).getD
      { answer_text := "", target_followups := 0,
        completed_followups := 0 }).final_score.isSome := by
    with_unfolding_all decide
  have h4 : witnessDb2.followups 1 0 = some ((witnessDb2.followups 1 0).getD
      { question_text := "", answer_text := "" }) := by
    with_unfolding_all decide
  exact ⟨hre, h1, h2, h4,
    reachable_scoring_all_or_nothing witnessDb2 hre 1 _ h1 h2 0 _ h4⟩
